import Mathlib

/-!
Verification development for the mail-monitor program `main.py`
(Sistema de Monitoreo de Correos de ejecuciones para Azure Boards).

The pure decision logic of the program is embedded shallowly:

* `determinar_accion_por_remitente` — the outcome classifier (main.py 366-395);
* `extraer_detalles_correo`          — the detail extractor (main.py 140-178),
  with the four regular-expression patterns implemented by a small
  backtracking matcher mirroring Python `re.findall` semantics
  (leftmost first match, greedy quantifiers, alternation tried left to
  right, `re.IGNORECASE` modelled as ASCII case folding);
* `_construir_descripcion` and its three section builders (main.py 230-309);
* `crear_elemento_trabajo`           — the submitter (main.py 180-228), with the
  HTTP collaborator's answer passed in as data (`Except Unit HttpRespuesta`:
  `Except.error` models a raised transport exception);
* `procesar_correo_traza`            — the per-message pipeline (main.py 397-459)
  as an event trace.

Python `str.lower` / `.strip()` / `re.IGNORECASE` are modelled on the ASCII
range (`Char.toLower`, `recortar`); every keyword and literal of the
program is ASCII-cased, so the modelling is exact on the program's tables.
Python strings are modelled as Lean `String` (slicing is by code point on
both sides).
-/

/-- `str.lower()` of Python, modelled character-wise on the ASCII range. -/
def minusculas (s : String) : String :=
  String.mk (s.toList.map Char.toLower)

/-- `esPrefijo a b` iff the list `a` is a prefix of `b` (exact characters). -/
def esPrefijo : List Char → List Char → Bool
  | [], _ => true
  | _ :: _, [] => false
  | c :: cs, d :: ds => c = d && esPrefijo cs ds

/-- `apareceEnLista sub s` iff `sub` occurs contiguously inside `s`
(Python's `sub in s` on strings). -/
def apareceEnLista (sub : List Char) : List Char → Bool
  | [] => esPrefijo sub []
  | s@(_ :: resto) => esPrefijo sub s || apareceEnLista sub resto

/-- Python's substring test `sub in s`. -/
def esSubcadena (sub s : String) : Bool :=
  apareceEnLista sub.toList s.toList

/-- ASCII whitespace (the characters Python `str.strip()` removes, on the
ASCII range). -/
def esEspacioPy (c : Char) : Bool :=
  c = ' ' || c = '\t' || c = '\n' || c = '\x0b' || c = '\x0c' || c = '\r'

/-- `str.strip()` of Python, modelled on the ASCII range. -/
def recortar (s : String) : String :=
  String.mk (((s.toList.dropWhile esEspacioPy).reverse.dropWhile esEspacioPy).reverse)

/-! ## A small backtracking matcher for the four `re` patterns

Continuation-passing matchers: a matcher consumes a prefix of the input,
passes the rest and the capture-group texts accumulated so far to the
continuation, and backtracks (greedy: longest consumption first) when the
continuation fails — exactly Python `re`'s backtracking discipline for the
constructs these patterns use (literal words, single-character classes
under `*`/`+`, alternation, non-nested groups). -/

/-- One matcher: input, continuation on (rest, groups so far), groups so far. -/
abbrev Emparejador :=
  List Char → (List Char → List String → Option (List String)) → List String →
    Option (List String)

/-- Drop a case-insensitive occurrence of `w` from the front (`re.IGNORECASE`,
ASCII folding). -/
def quitarPrefijoCI : List Char → List Char → Option (List Char)
  | [], s => some s
  | _ :: _, [] => none
  | c :: cs, d :: ds => if c.toLower = d.toLower then quitarPrefijoCI cs ds else none

/-- Try the continuation after consuming `n, n-1, …, 0` characters (greedy `*`). -/
def intentarLargos (s : List Char) (k : List Char → Option (List String)) :
    Nat → Option (List String)
  | 0 => k s
  | n + 1 =>
    match k (s.drop (n + 1)) with
    | some r => some r
    | none => intentarLargos s k n

/-- Try the continuation after consuming `n, n-1, …, 1` characters (greedy `+`). -/
def intentarLargosDesdeUno (s : List Char) (k : List Char → Option (List String)) :
    Nat → Option (List String)
  | 0 => none
  | n + 1 =>
    match k (s.drop (n + 1)) with
    | some r => some r
    | none => intentarLargosDesdeUno s k n

/-- Literal word, case-insensitive. -/
def eLit (w : String) : Emparejador := fun s k gs =>
  match quitarPrefijoCI w.toList s with
  | some resto => k resto gs
  | none => none

/-- `[clase]*`, greedy with backtracking. -/
def eClaseAst (p : Char → Bool) : Emparejador := fun s k gs =>
  intentarLargos s (fun s' => k s' gs) ((s.takeWhile p).length)

/-- `[clase]+`, greedy with backtracking. -/
def eClaseMas (p : Char → Bool) : Emparejador := fun s k gs =>
  intentarLargosDesdeUno s (fun s' => k s' gs) ((s.takeWhile p).length)

/-- Sequencing. -/
def eSec (a b : Emparejador) : Emparejador := fun s k gs =>
  a s (fun s' gs' => b s' k gs') gs

/-- Alternation, first alternative preferred (Python tries left to right). -/
def eAlt (a b : Emparejador) : Emparejador := fun s k gs =>
  match a s k gs with
  | some r => some r
  | none => b s k gs

/-- Capture group: records the text consumed by the inner matcher.  The
four patterns of the program have no nested groups, so appending at group
close yields Python's group order. -/
def eGrupo (a : Emparejador) : Emparejador := fun s k gs =>
  a s (fun s' gs' => k s' (gs' ++ [String.mk (s.take (s.length - s'.length))])) gs

/-- The matcher that never matches (identity of `eAlt`). -/
def eNada : Emparejador := fun _ _ _ => none

/-- `(w1|w2|…)` over literal words, tried left to right. -/
def eAltCadenas : List String → Emparejador
  | [] => eNada
  | w :: resto => eAlt (eLit w) (eAltCadenas resto)

/-- Leftmost match (first element of `re.findall`): try the matcher at every
start position, left to right; groups of the first successful match. -/
def buscarPrimera (e : Emparejador) : List Char → Option (List String)
  | [] => e [] (fun _ gs => some gs) []
  | s@(_ :: resto) =>
    match e s (fun _ gs => some gs) [] with
    | some gs => some gs
    | none => buscarPrimera e resto

/-- `\s` of Python `re` (ASCII range). -/
def esEspacioRe (c : Char) : Bool :=
  c = ' ' || c = '\t' || c = '\n' || c = '\x0b' || c = '\x0c' || c = '\r'

/-- `[:\s]` of the patterns. -/
def esClaseSep (c : Char) : Bool := c = ':' || esEspacioRe c

/-- `[0-9:\.]` of the duration pattern. -/
def esClaseNum (c : Char) : Bool := ('0' ≤ c && c ≤ '9') || c = ':' || c = '.'

/-- `.` without `DOTALL`: any character except newline. -/
def esPuntoRe (c : Char) : Bool := c ≠ '\n'

/-- `[^\s<>"]` of the URL pattern. -/
def esCaracterUrl (c : Char) : Bool :=
  !(esEspacioRe c) && c ≠ '<' && c ≠ '>' && c ≠ '"'

/-- `(time|duration|tiempo|duracion)[:\s]*([0-9:\.]+)\s*(seconds|secs|minutos|minutes|ms|s)` -/
def patronTiempo : Emparejador :=
  eSec (eGrupo (eAltCadenas ["time", "duration", "tiempo", "duracion"]))
    (eSec (eClaseAst esClaseSep)
      (eSec (eGrupo (eClaseMas esClaseNum))
        (eSec (eClaseAst esEspacioRe)
          (eGrupo (eAltCadenas ["seconds", "secs", "minutos", "minutes", "ms", "s"])))))

/-- `(error|exception|failed|failure)[:\s]*(.+)` -/
def patronError : Emparejador :=
  eSec (eGrupo (eAltCadenas ["error", "exception", "failed", "failure"]))
    (eSec (eClaseAst esClaseSep) (eGrupo (eClaseMas esPuntoRe)))

/-- `(result|status|estado)[:\s]*(success|failed|passed|completed|completado)` -/
def patronResultado : Emparejador :=
  eSec (eGrupo (eAltCadenas ["result", "status", "estado"]))
    (eSec (eClaseAst esClaseSep)
      (eGrupo (eAltCadenas ["success", "failed", "passed", "completed", "completado"])))

/-- `(https?://[^\s<>"]+|www\.[^\s<>"]+)`: the optional greedy `s?` of
`https?` is expanded into alternation with the `s` variant first. -/
def patronUrl : Emparejador :=
  eGrupo (eAlt (eSec (eLit "https://") (eClaseMas esCaracterUrl))
    (eAlt (eSec (eLit "http://") (eClaseMas esCaracterUrl))
      (eSec (eLit "www.") (eClaseMas esCaracterUrl))))

/-- The value stored from `coincidencias[0]` (main.py 172): a single-group
match is the string itself, several groups are space-joined — both are the
space-join of the group list. -/
def valorCoincidencia (gs : List String) : String :=
  String.intercalate " " gs

/-! ## Data model -/

/-- The `detalles` dictionary (keys in insertion order of main.py); an
absent key is `none`. -/
structure Detalles where
  cuerpo_completo : Option String
  tiempo_ejecucion : Option String
  error : Option String
  resultado : Option String
  url_reporte : Option String
  remitente : Option String
deriving DecidableEq

/-- Python truthiness of the `detalles` dict restricted to its keys:
non-empty iff some key is present. -/
def Detalles.noVacio (d : Detalles) : Bool :=
  d.cuerpo_completo.isSome || d.tiempo_ejecucion.isSome || d.error.isSome ||
    d.resultado.isSome || d.url_reporte.isSome || d.remitente.isSome

/-- `extraer_detalles_correo` (main.py 140-178).  The body-decoding of the
e-mail message (main.py 146-156) is an external concern; the input is the
decoded body, with `Except.error` modelling any exception raised inside
the `try` block before/while obtaining it, which the function turns into
the placeholder-only dictionary (main.py 176-178). -/
def extraer_detalles_correo (entrada : Except Unit String) : Detalles :=
  match entrada with
  | .error _ =>
    { cuerpo_completo := some "Error al extraer contenido del correo"
      tiempo_ejecucion := none, error := none, resultado := none
      url_reporte := none, remitente := none }
  | .ok cuerpo =>
    { cuerpo_completo :=
        some (if cuerpo.length > 1000 then cuerpo.take 1000 ++ "..." else cuerpo)
      tiempo_ejecucion := (buscarPrimera patronTiempo cuerpo.toList).map valorCoincidencia
      error := (buscarPrimera patronError cuerpo.toList).map valorCoincidencia
      resultado := (buscarPrimera patronResultado cuerpo.toList).map valorCoincidencia
      url_reporte := (buscarPrimera patronUrl cuerpo.toList).map valorCoincidencia
      remitente := none }

example :
    (extraer_detalles_correo (.ok "Error: compile error\nDuration: 12 minutes")).error
      = some "Error compile error" := by decide

example :
    (extraer_detalles_correo (.ok "Error: compile error\nDuration: 12 minutes")).tiempo_ejecucion
      = some "Duration 12 minutes" := by decide

/-! ## Rule tables (main.py 44-78)

Python dictionaries preserve insertion order; they are modelled as
association lists in source order and the program's first-match `for`
loops as `List.find?`. -/

/-- `MAPEO_TABLERO["columnas_estados"]` (main.py 45-51). -/
def columnas_estados : List (String × String) :=
  [("Bugs creados", "To Do"), ("En revision", "Doing"), ("Ejecucion existosa", "Done")]

/-- `MAPEO_REMITENTES` (main.py 54-65). -/
def MAPEO_REMITENTES : List (String × List (String × String)) :=
  [("azuredevops@microsoft.com",
      [("failed", "Bugs creados"), ("succeeded", "Ejecucion existosa"),
       ("warning", "En revision")]),
   ("os-certificacionoperaciones@osde.com.ar",
      [("failed", "Bugs creados"), ("success", "Ejecucion existosa"),
       ("unstable", "En revision")])]

/-- `PLANTILLAS_DETALLES` (main.py 68-78). -/
def PLANTILLAS_DETALLES : List (String × List (String × String)) :=
  [("azuredevops@microsoft.com",
      [("failed", "🚨 Pipeline de Azure DevOps falló"),
       ("succeeded", "✅ Pipeline de Azure DevOps exitoso"),
       ("warning", "⚠️ Advertencia en Pipeline de Azure DevOps")]),
   ("os-certificacionoperaciones@osde.com.ar",
      [("failed", "🚨 Prueba fallida"), ("success", "✅ Prueba exitosa")])]

/-- Generic failure keywords (main.py 388). -/
def GENERICOS_FALLO : List String :=
  ["failed", "failure", "error", "falló", "fallo", "fallida"]

/-- Generic success keywords (main.py 390). -/
def GENERICOS_EXITO : List String :=
  ["succeeded", "success", "exitoso", "completado", "exitosa"]

/-- Generic warning keywords (main.py 392). -/
def GENERICOS_ADVERTENCIA : List String :=
  ["warning", "unstable", "advertencia", "inestable"]

/-! ## Outcome classifier (main.py 366-395) -/

/-- Sender sub-table selection (main.py 371-380): first table key whose
lowercase form is a substring of the cleaned sender wins; otherwise the
`azuredevops@microsoft.com` default table (`dict.get` with `{}` default). -/
def seleccionar_mapeo (remitente_limpio : String) : List (String × String) :=
  match MAPEO_REMITENTES.find?
      (fun kv => esSubcadena (minusculas kv.1) remitente_limpio) with
  | some kv => kv.2
  | none => (MAPEO_REMITENTES.lookup "azuredevops@microsoft.com").getD []

/-- `determinar_accion_por_remitente` (main.py 366-395): the pair
`(columna, patron)` — `(none, none)` is the no-action outcome. -/
def determinar_accion_por_remitente (asunto remitente : String) :
    Option String × Option String :=
  let asunto_lower := minusculas asunto
  let mapeo_remitente := seleccionar_mapeo (minusculas (recortar remitente))
  match mapeo_remitente.find? (fun kv => esSubcadena kv.1 asunto_lower) with
  | some kv => (some kv.2, some kv.1)
  | none =>
    if GENERICOS_FALLO.any (fun p => esSubcadena p asunto_lower) then
      (some "Bugs creados", some "failed")
    else if GENERICOS_EXITO.any (fun p => esSubcadena p asunto_lower) then
      (some "Ejecucion existosa", some "success")
    else if GENERICOS_ADVERTENCIA.any (fun p => esSubcadena p asunto_lower) then
      (some "En revision", some "warning")
    else
      (none, none)

example :
    determinar_accion_por_remitente "Build #42 failed" "azuredevops@microsoft.com"
      = (some "Bugs creados", some "failed") := by decide

example :
    determinar_accion_por_remitente "Suite unstable — review needed"
        "os-certificacionoperaciones@osde.com.ar"
      = (some "En revision", some "unstable") := by decide

example :
    determinar_accion_por_remitente "Daily digest" "azuredevops@microsoft.com"
      = (none, none) := by decide

/-! ## Description renderer (main.py 230-309)

The Python methods take the `detalles` dict or `None`; `Option Detalles`
models that, with `Option.none` standing for `None`, and the `if detalles:`
truthiness test on a dict becoming `Detalles.noVacio`. -/

/-- `_descripcion_error` (main.py 251-268). -/
def _descripcion_error (detalles : Option Detalles) : String :=
  let descripcion := "<h3>🚨 Error en Ejecución</h3>"
      ++ "<p>Se ha detectado un error durante la ejecución.</p>"
  match detalles with
  | none => descripcion
  | some d =>
    if d.noVacio then
      descripcion ++ "<h4>🔍 Detalles del error:</h4>" ++ "<ul>"
        ++ (match d.error with
            | some e => "<li><strong>Error:</strong> " ++ e ++ "</li>"
            | none => "")
        ++ (match d.tiempo_ejecucion with
            | some t => "<li><strong>Tiempo de ejecución:</strong> " ++ t ++ "</li>"
            | none => "")
        ++ "</ul>"
    else descripcion

/-- `_descripcion_exitosa` (main.py 270-290). -/
def _descripcion_exitosa (detalles : Option Detalles) : String :=
  let descripcion := "<h3>✅ Ejecución Exitosa</h3>"
      ++ "<p>La ejecución se ha completado sin errores.</p>"
  match detalles with
  | none => descripcion
  | some d =>
    if d.noVacio then
      descripcion ++ "<h4>📊 Métricas de ejecución:</h4>" ++ "<ul>"
        ++ (match d.tiempo_ejecucion with
            | some t => "<li><strong>Tiempo de ejecución:</strong> " ++ t ++ "</li>"
            | none => "")
        ++ (match d.resultado with
            | some r => "<li><strong>Resultado:</strong> " ++ r ++ "</li>"
            | none => "")
        ++ (match d.url_reporte with
            | some u => "<li><strong>Reporte:</strong> <a href='" ++ u
                ++ "'>Ver reporte</a></li>"
            | none => "")
        ++ "</ul>"
    else descripcion

/-- `_descripcion_advertencia` (main.py 292-309). -/
def _descripcion_advertencia (detalles : Option Detalles) : String :=
  let descripcion := "<h3>⚠️ Ejecución con Advertencias</h3>"
      ++ "<p>La ejecución se completó pero con advertencias que requieren revisión.</p>"
  match detalles with
  | none => descripcion
  | some d =>
    if d.noVacio then
      descripcion ++ "<h4>📝 Detalles:</h4>" ++ "<ul>"
        ++ (match d.error with
            | some e => "<li><strong>Advertencia:</strong> " ++ e ++ "</li>"
            | none => "")
        ++ (match d.tiempo_ejecucion with
            | some t => "<li><strong>Tiempo de ejecución:</strong> " ++ t ++ "</li>"
            | none => "")
        ++ "</ul>"
    else descripcion

/-- `_construir_descripcion` (main.py 230-249). -/
def _construir_descripcion (columna_destino : String) (detalles : Option Detalles)
    (remitente : String) : String :=
  let cabecera := "<h3>📧 Elemento generado automáticamente</h3>"
      ++ "<p><strong>Remitente:</strong> " ++ remitente ++ "</p>"
  let seccion :=
    if columna_destino = "Bugs creados" then _descripcion_error detalles
    else if columna_destino = "Ejecucion existosa" then _descripcion_exitosa detalles
    else if columna_destino = "En revision" then _descripcion_advertencia detalles
    else "<p>Notificación de sistema CI/CD</p>"
  let bloque_cuerpo :=
    match detalles with
    | some d =>
      if d.noVacio && d.cuerpo_completo.isSome then
        "<h4>📋 Contenido completo:</h4>" ++ "<pre>"
          ++ d.cuerpo_completo.getD "" ++ "</pre>"
      else ""
    | none => ""
  cabecera ++ seccion ++ bloque_cuerpo
    ++ "<p><em>🔄 Creado automáticamente desde monitoreo de correo</em></p>"

/-! ## Work-item submitter (main.py 180-228) -/

/-- The HTTP answer of the `create-item` collaborator call: status code and
the optional numeric `id` of the JSON body (`respuesta.json().get('id','N/A')`
yields `"N/A"` when absent). -/
structure HttpRespuesta where
  status_code : Nat
  id_cuerpo : Option Nat
deriving DecidableEq

/-- The JSON-patch payload assembled at main.py 200-214 (the `op`/`path`
boilerplate elided: one field per `value`). -/
structure SolicitudCreacion where
  titulo : String
  descripcion : String
  estado : String
  etiquetas : String
  historial : Option String
deriving DecidableEq

/-- The 4-tuple returned by `crear_elemento_trabajo`. -/
structure ResultadoCreacion where
  exito : Bool
  id_elemento : Option String
  url_elemento : Option String
  estado : Option String
deriving DecidableEq

/-- `crear_elemento_trabajo` (main.py 180-228).  `estados_disponibles` is
the list answered by the `obtener_estados_elemento` collaborator call;
`respuesta_creacion` the `requests.post` outcome, `Except.error ()`
modelling a raised transport exception (caught at main.py 226-228).
Returns the assembled request together with the interpreted result. -/
def crear_elemento_trabajo (org proyecto titulo tipo_elemento columna_destino : String)
    (detalles : Option Detalles) (remitente : String)
    (estados_disponibles : List String)
    (respuesta_creacion : Except Unit HttpRespuesta) :
    SolicitudCreacion × ResultadoCreacion :=
  let estado := (columnas_estados.lookup columna_destino).getD "To Do"
  let estado :=
    if estado ∈ estados_disponibles then estado
    else match estados_disponibles with
      | [] => "To Do"
      | e :: _ => e
  let descripcion := _construir_descripcion columna_destino detalles remitente
  let solicitud : SolicitudCreacion :=
    { titulo := titulo, descripcion := descripcion, estado := estado
      etiquetas := "Auto-Generado"
      historial := if remitente ≠ "" then some ("Generado desde: " ++ remitente) else none }
  let resultado :=
    match respuesta_creacion with
    | .error _ => ResultadoCreacion.mk false none none none
    | .ok r =>
      if r.status_code = 200 ∨ r.status_code = 201 then
        let id_elemento := match r.id_cuerpo with
          | some n => toString n
          | none => "N/A"
        ResultadoCreacion.mk true (some id_elemento)
          (some (org ++ "/" ++ proyecto ++ "/_workitems/edit/" ++ id_elemento))
          (some estado)
      else ResultadoCreacion.mk false none none none
  (solicitud, resultado)

/-! ## Per-message pipeline (main.py 397-459) as an event trace -/

/-- Observable steps of `procesar_correo`, in the order the code performs
them.  `marcar_visto` is the `cliente.store(id, '+FLAGS', '\\Seen')` call
(main.py 414); the four success log lines (main.py 451-454) are folded
into the single `registrar_exito` event. -/
inductive Evento where
  | registrar_entrada
  | extraccion
  | marcar_visto
  | clasificacion
  | registrar_sin_accion
  | consulta_tipos
  | consulta_estados
  | renderizado
  | envio
  | registrar_exito
  | registrar_fallo
deriving DecidableEq

/-- The inputs of one `procesar_correo` run.  `fetch_ok` is whether
`cliente.fetch` answered `"OK"` (main.py 400-402); `asunto` is the decoded
subject (message parsing and `decodificar_asunto` are collaborator-side);
`entrada_cuerpo` feeds `extraer_detalles_correo`; the remaining fields are
the collaborator answers consumed downstream. -/
structure EntradaProceso where
  fetch_ok : Bool
  asunto : String
  entrada_cuerpo : Except Unit String
  remitente : String
  org : String
  proyecto : String
  tipos_disponibles : List String
  estados_disponibles : List String
  respuesta_creacion : Except Unit HttpRespuesta

/-- `procesar_correo` (main.py 397-459), as the sequence of observable
events it performs.  A failed fetch returns immediately (main.py 401-402);
otherwise the code logs, extracts, marks the message seen, classifies, and
either stops at the no-action log (main.py 419-421) or queries the item
types, builds the title (main.py 424-443), and creates the work item —
whose internal order is list-states, render, post (main.py 186-216). -/
def procesar_correo_traza (e : EntradaProceso) : List Evento :=
  if e.fetch_ok = false then []
  else
    let detalles : Detalles :=
      { extraer_detalles_correo e.entrada_cuerpo with remitente := some e.remitente }
    let inicio := [Evento.registrar_entrada, Evento.extraccion,
      Evento.marcar_visto, Evento.clasificacion]
    match determinar_accion_por_remitente e.asunto e.remitente with
    | (none, _) => inicio ++ [Evento.registrar_sin_accion]
    | (some columna, tipo_evento_opcional) =>
      -- `tipo_evento` is always a string here: the table and fallback
      -- branches of the classifier pair `some columna` with a keyword.
      let tipo_evento := tipo_evento_opcional.getD ""
      let tipo_elemento :=
        if "Issue" ∈ e.tipos_disponibles then "Issue"
        else match e.tipos_disponibles with
          | [] => "Issue"
          | t :: _ => t
      let titulo_prefijo :=
        (((PLANTILLAS_DETALLES.lookup e.remitente).getD []).lookup tipo_evento).getD ""
      let titulo_prefijo :=
        if titulo_prefijo = "" then
          if tipo_evento = "failed" then "🚨 Error en ejecución"
          else if tipo_evento = "success" then "✅ Ejecución exitosa"
          else "⚠️ Notificación"
        else titulo_prefijo
      let titulo := titulo_prefijo ++ ": " ++ e.asunto.take 100
        ++ (if e.asunto.length > 100 then "..." else "")
      let resultado := (crear_elemento_trabajo e.org e.proyecto titulo tipo_elemento
        columna (some detalles) e.remitente e.estados_disponibles
        e.respuesta_creacion).2
      inicio ++ [Evento.consulta_tipos, Evento.consulta_estados,
          Evento.renderizado, Evento.envio]
        ++ (if resultado.exito then [Evento.registrar_exito] else [Evento.registrar_fallo])

/-! ## Claims -/

/-- C5: extraction is total — for every input (normal body, empty body, or an
internal error while obtaining the body) a details map is returned with the
body field present, and an internal error yields exactly the map holding only
the placeholder explanatory string. -/
theorem extraccion_total (entrada : Except Unit String) :
    (extraer_detalles_correo entrada).cuerpo_completo.isSome = true ∧
    (entrada = .error () →
      extraer_detalles_correo entrada =
        { cuerpo_completo := some "Error al extraer contenido del correo"
          tiempo_ejecucion := none, error := none, resultado := none
          url_reporte := none, remitente := none }) := by
  cases entrada with
  | error u => exact ⟨rfl, fun _ => rfl⟩
  | ok cuerpo => exact ⟨rfl, fun h => Except.noConfusion h⟩

/-- Witness for C5 at the internal-error input. -/
theorem extraccion_total_witness :
    (extraer_detalles_correo (.error ())).cuerpo_completo.isSome = true ∧
    extraer_detalles_correo (.error ()) =
      { cuerpo_completo := some "Error al extraer contenido del correo"
        tiempo_ejecucion := none, error := none, resultado := none
        url_reporte := none, remitente := none } :=
  ⟨(extraccion_total (.error ())).1, (extraccion_total (.error ())).2 rfl⟩

/-- C6: the stored truncated-body field is the body itself when it has at
most 1000 characters, and the first 1000 characters followed by the marker
`"..."` when longer — independently of the pattern searches. -/
theorem truncado_cuerpo (cuerpo : String) :
    (cuerpo.length ≤ 1000 →
      (extraer_detalles_correo (.ok cuerpo)).cuerpo_completo = some cuerpo) ∧
    (1000 < cuerpo.length →
      (extraer_detalles_correo (.ok cuerpo)).cuerpo_completo
        = some (cuerpo.take 1000 ++ "...")) := by
  constructor
  · intro h
    have hno : ¬(cuerpo.length > 1000) := by omega
    simp [extraer_detalles_correo, hno]
  · intro h
    simp [extraer_detalles_correo, h]

/-- Witness for C6 on a short and on a 1001-character body. -/
theorem truncado_cuerpo_witness :
    ("abc".length ≤ 1000 ∧
      (extraer_detalles_correo (.ok "abc")).cuerpo_completo = some "abc") ∧
    (1000 < (String.mk (List.replicate 1001 'a')).length ∧
      (extraer_detalles_correo (.ok (String.mk (List.replicate 1001 'a')))).cuerpo_completo
        = some ((String.mk (List.replicate 1001 'a')).take 1000 ++ "...")) :=
  have h : (String.mk (List.replicate 1001 'a')).length = 1001 := by
    show (List.replicate 1001 'a').length = 1001
    rw [List.length_replicate]
  ⟨⟨by decide, (truncado_cuerpo "abc").1 (by decide)⟩,
   ⟨by omega, (truncado_cuerpo _).2 (by omega)⟩⟩

/-- The body of end-to-end scenario 1. -/
def cuerpoEscenario1 : String := "Error: compile error\nDuration: 12 minutes"

/-- The details of scenario 1 after the pipeline adds the sender (main.py 411). -/
def detallesEscenario1 : Detalles :=
  { extraer_detalles_correo (.ok cuerpoEscenario1) with
      remitente := some "azuredevops@microsoft.com" }

/-- The description rendered for scenario 1. -/
def descripcionEscenario1 : String :=
  _construir_descripcion "Bugs creados" (some detallesEscenario1)
    "azuredevops@microsoft.com"

/-- C2 counterexample: on scenario 1's body the extracted error field is the
space-join of both capture groups, `"Error compile error"`, not the claimed
`"compile error"`. -/
theorem escenario1_error_contraejemplo :
    (extraer_detalles_correo (.ok cuerpoEscenario1)).error ≠ some "compile error" ∧
    (extraer_detalles_correo (.ok cuerpoEscenario1)).error = some "Error compile error" := by
  decide

set_option maxRecDepth 20000 in
/-- C2 (amended): scenario 1 classifies as the failure category; extraction
yields error `"Error compile error"` (containing `"compile error"`) and
duration `"Duration 12 minutes"` (containing `"12 minutes"`); the rendered
description carries both values inside the failure section; and submission
resolves the state mapped to the failure category, `"To Do"`. -/
theorem escenario1_extremo_a_extremo :
    determinar_accion_por_remitente "Build #42 failed" "azuredevops@microsoft.com"
      = (some "Bugs creados", some "failed") ∧
    (extraer_detalles_correo (.ok cuerpoEscenario1)).error = some "Error compile error" ∧
    esSubcadena "compile error" "Error compile error" = true ∧
    (extraer_detalles_correo (.ok cuerpoEscenario1)).tiempo_ejecucion
      = some "Duration 12 minutes" ∧
    esSubcadena "12 minutes" "Duration 12 minutes" = true ∧
    esSubcadena "<h3>🚨 Error en Ejecución</h3>" descripcionEscenario1 = true ∧
    esSubcadena "<li><strong>Error:</strong> Error compile error</li>"
      descripcionEscenario1 = true ∧
    esSubcadena "<li><strong>Tiempo de ejecución:</strong> Duration 12 minutes</li>"
      descripcionEscenario1 = true ∧
    (crear_elemento_trabajo "https://dev.azure.com/org" "proy" "titulo" "Issue"
        "Bugs creados" (some detallesEscenario1) "azuredevops@microsoft.com"
        ["To Do", "Doing", "Done"] (.ok ⟨201, some 7⟩)).1.estado = "To Do" ∧
    columnas_estados.lookup "Bugs creados" = some "To Do" := by
  decide

/-- C3: when no keyword of the selected sender sub-table (sender-specific or
default) occurs in the subject, the generic fallback groups decide in the
fixed order failure → success → warning → no-action, the first group with a
substring hit winning; in particular a generic failure word yields the
generic failure category. -/
theorem clasificacion_respaldo_generico (asunto remitente : String)
    (htabla : ∀ kv ∈ seleccionar_mapeo (minusculas (recortar remitente)),
      esSubcadena kv.1 (minusculas asunto) = false) :
    ((∃ p ∈ GENERICOS_FALLO, esSubcadena p (minusculas asunto) = true) →
      (determinar_accion_por_remitente asunto remitente).1 = some "Bugs creados") ∧
    ((∀ p ∈ GENERICOS_FALLO, esSubcadena p (minusculas asunto) = false) →
      (∃ p ∈ GENERICOS_EXITO, esSubcadena p (minusculas asunto) = true) →
      (determinar_accion_por_remitente asunto remitente).1 = some "Ejecucion existosa") ∧
    ((∀ p ∈ GENERICOS_FALLO, esSubcadena p (minusculas asunto) = false) →
      (∀ p ∈ GENERICOS_EXITO, esSubcadena p (minusculas asunto) = false) →
      (∃ p ∈ GENERICOS_ADVERTENCIA, esSubcadena p (minusculas asunto) = true) →
      (determinar_accion_por_remitente asunto remitente).1 = some "En revision") ∧
    ((∀ p ∈ GENERICOS_FALLO, esSubcadena p (minusculas asunto) = false) →
      (∀ p ∈ GENERICOS_EXITO, esSubcadena p (minusculas asunto) = false) →
      (∀ p ∈ GENERICOS_ADVERTENCIA, esSubcadena p (minusculas asunto) = false) →
      determinar_accion_por_remitente asunto remitente = (none, none)) := by
  have hfind : (seleccionar_mapeo (minusculas (recortar remitente))).find?
      (fun kv => esSubcadena kv.1 (minusculas asunto)) = none := by
    apply List.find?_eq_none.mpr
    intro kv hkv
    simp [htabla kv hkv]
  refine ⟨fun hf => ?_, fun hnf hx => ?_, fun hnf hnx ha => ?_, fun hnf hnx hna => ?_⟩
  · have h1 : GENERICOS_FALLO.any (fun p => esSubcadena p (minusculas asunto)) = true := by
      obtain ⟨p, hp, hps⟩ := hf
      exact List.any_eq_true.mpr ⟨p, hp, hps⟩
    simp [determinar_accion_por_remitente, hfind, h1]
  · have h1 : GENERICOS_FALLO.any (fun p => esSubcadena p (minusculas asunto)) = false := by
      simp only [List.any_eq_false]
      intro p hp
      simp [hnf p hp]
    have h2 : GENERICOS_EXITO.any (fun p => esSubcadena p (minusculas asunto)) = true := by
      obtain ⟨p, hp, hps⟩ := hx
      exact List.any_eq_true.mpr ⟨p, hp, hps⟩
    simp [determinar_accion_por_remitente, hfind, h1, h2]
  · have h1 : GENERICOS_FALLO.any (fun p => esSubcadena p (minusculas asunto)) = false := by
      simp only [List.any_eq_false]
      intro p hp
      simp [hnf p hp]
    have h2 : GENERICOS_EXITO.any (fun p => esSubcadena p (minusculas asunto)) = false := by
      simp only [List.any_eq_false]
      intro p hp
      simp [hnx p hp]
    have h3 : GENERICOS_ADVERTENCIA.any (fun p => esSubcadena p (minusculas asunto)) = true := by
      obtain ⟨p, hp, hps⟩ := ha
      exact List.any_eq_true.mpr ⟨p, hp, hps⟩
    simp [determinar_accion_por_remitente, hfind, h1, h2, h3]
  · have h1 : GENERICOS_FALLO.any (fun p => esSubcadena p (minusculas asunto)) = false := by
      simp only [List.any_eq_false]
      intro p hp
      simp [hnf p hp]
    have h2 : GENERICOS_EXITO.any (fun p => esSubcadena p (minusculas asunto)) = false := by
      simp only [List.any_eq_false]
      intro p hp
      simp [hnx p hp]
    have h3 : GENERICOS_ADVERTENCIA.any (fun p => esSubcadena p (minusculas asunto)) = false := by
      simp only [List.any_eq_false]
      intro p hp
      simp [hna p hp]
    simp [determinar_accion_por_remitente, hfind, h1, h2, h3]

/-- Witness for C3: an unknown sender (default sub-table selected), a subject
with no table keyword but the generic failure word `"error"`. -/
theorem clasificacion_respaldo_generico_witness :
    (determinar_accion_por_remitente "unexpected error" "nobody@example.com").1
      = some "Bugs creados" :=
  (clasificacion_respaldo_generico "unexpected error" "nobody@example.com"
    (by decide)).1 ⟨"error", by decide, by decide⟩

/-- C4: when the sender selects a known sender sub-table (first table key
contained in the normalized sender wins) and the subject contains a keyword
of that sub-table, the classifier returns that sub-table's category for the
first matching keyword in table order, with that keyword — sender-specific
match takes priority over the generic fallback groups. -/
theorem clasificacion_tabla_remitente (asunto remitente clave : String)
    (tabla : List (String × String)) (palabra columna : String)
    (hremitente : MAPEO_REMITENTES.find?
        (fun kv => esSubcadena (minusculas kv.1) (minusculas (recortar remitente)))
        = some (clave, tabla))
    (hpalabra : tabla.find? (fun kv => esSubcadena kv.1 (minusculas asunto))
        = some (palabra, columna)) :
    determinar_accion_por_remitente asunto remitente = (some columna, some palabra) := by
  simp [determinar_accion_por_remitente, seleccionar_mapeo, hremitente, hpalabra]

/-- Witness for C4: end-to-end scenario 2 — the osde sender with subject
`"Suite unstable — review needed"` is classified `"En revision"` through the
sender table's own `"unstable"` entry, not the generic `"warning"` fallback. -/
theorem clasificacion_tabla_remitente_witness :
    determinar_accion_por_remitente "Suite unstable — review needed"
        "os-certificacionoperaciones@osde.com.ar"
      = (some "En revision", some "unstable") :=
  clasificacion_tabla_remitente "Suite unstable — review needed"
    "os-certificacionoperaciones@osde.com.ar" "os-certificacionoperaciones@osde.com.ar"
    [("failed", "Bugs creados"), ("success", "Ejecucion existosa"),
     ("unstable", "En revision")]
    "unstable" "En revision" (by decide) (by decide)

/-- C10: when only a generic fallback group matches (no keyword of the
selected sub-table in the subject), the matched-keyword component is the
group's canonical token — `"failed"`, `"success"` or `"warning"` — and not
the subject word that produced the hit. -/
theorem respaldo_palabra_canonica (asunto remitente : String)
    (htabla : ∀ kv ∈ seleccionar_mapeo (minusculas (recortar remitente)),
      esSubcadena kv.1 (minusculas asunto) = false) :
    ((∃ p ∈ GENERICOS_FALLO, esSubcadena p (minusculas asunto) = true) →
      (determinar_accion_por_remitente asunto remitente).2 = some "failed") ∧
    ((∀ p ∈ GENERICOS_FALLO, esSubcadena p (minusculas asunto) = false) →
      (∃ p ∈ GENERICOS_EXITO, esSubcadena p (minusculas asunto) = true) →
      (determinar_accion_por_remitente asunto remitente).2 = some "success") ∧
    ((∀ p ∈ GENERICOS_FALLO, esSubcadena p (minusculas asunto) = false) →
      (∀ p ∈ GENERICOS_EXITO, esSubcadena p (minusculas asunto) = false) →
      (∃ p ∈ GENERICOS_ADVERTENCIA, esSubcadena p (minusculas asunto) = true) →
      (determinar_accion_por_remitente asunto remitente).2 = some "warning") := by
  have hfind : (seleccionar_mapeo (minusculas (recortar remitente))).find?
      (fun kv => esSubcadena kv.1 (minusculas asunto)) = none := by
    apply List.find?_eq_none.mpr
    intro kv hkv
    simp [htabla kv hkv]
  refine ⟨fun hf => ?_, fun hnf hx => ?_, fun hnf hnx ha => ?_⟩
  · have h1 : GENERICOS_FALLO.any (fun p => esSubcadena p (minusculas asunto)) = true := by
      obtain ⟨p, hp, hps⟩ := hf
      exact List.any_eq_true.mpr ⟨p, hp, hps⟩
    simp [determinar_accion_por_remitente, hfind, h1]
  · have h1 : GENERICOS_FALLO.any (fun p => esSubcadena p (minusculas asunto)) = false := by
      simp only [List.any_eq_false]
      intro p hp
      simp [hnf p hp]
    have h2 : GENERICOS_EXITO.any (fun p => esSubcadena p (minusculas asunto)) = true := by
      obtain ⟨p, hp, hps⟩ := hx
      exact List.any_eq_true.mpr ⟨p, hp, hps⟩
    simp [determinar_accion_por_remitente, hfind, h1, h2]
  · have h1 : GENERICOS_FALLO.any (fun p => esSubcadena p (minusculas asunto)) = false := by
      simp only [List.any_eq_false]
      intro p hp
      simp [hnf p hp]
    have h2 : GENERICOS_EXITO.any (fun p => esSubcadena p (minusculas asunto)) = false := by
      simp only [List.any_eq_false]
      intro p hp
      simp [hnx p hp]
    have h3 : GENERICOS_ADVERTENCIA.any (fun p => esSubcadena p (minusculas asunto)) = true := by
      obtain ⟨p, hp, hps⟩ := ha
      exact List.any_eq_true.mpr ⟨p, hp, hps⟩
    simp [determinar_accion_por_remitente, hfind, h1, h2, h3]

/-- Witness for C10: the subject contains `"error"` but not `"failed"`, yet
the matched keyword reported is the canonical `"failed"`. -/
theorem respaldo_palabra_canonica_witness :
    esSubcadena "failed" (minusculas "error while deploying") = false ∧
    (determinar_accion_por_remitente "error while deploying"
        "azuredevops@microsoft.com").2 = some "failed" :=
  ⟨by decide,
   (respaldo_palabra_canonica "error while deploying" "azuredevops@microsoft.com"
     (by decide)).1 ⟨"error", by decide, by decide⟩⟩

/-- C7: when the state mapped to the category is absent from the supplied
valid-states list, the submitter resolves the first entry of that list, and
the hardcoded default `"To Do"` when the list is empty. -/
theorem estado_reserva (org proyecto titulo tipo columna : String)
    (detalles : Option Detalles) (remitente : String)
    (estados : List String) (respuesta : Except Unit HttpRespuesta)
    (h : (columnas_estados.lookup columna).getD "To Do" ∉ estados) :
    (∀ e resto, estados = e :: resto →
      (crear_elemento_trabajo org proyecto titulo tipo columna detalles remitente
          estados respuesta).1.estado = e) ∧
    (estados = [] →
      (crear_elemento_trabajo org proyecto titulo tipo columna detalles remitente
          estados respuesta).1.estado = "To Do") := by
  constructor
  · rintro e resto rfl
    simp [crear_elemento_trabajo, h]
  · rintro rfl
    simp [crear_elemento_trabajo, h]

/-- Witness for C7: `"Bugs creados"` maps to `"To Do"`, absent from
`["New", "Active"]` and from `[]`. -/
theorem estado_reserva_witness :
    (crear_elemento_trabajo "o" "p" "t" "Issue" "Bugs creados" none "r"
        ["New", "Active"] (.error ())).1.estado = "New" ∧
    (crear_elemento_trabajo "o" "p" "t" "Issue" "Bugs creados" none "r"
        [] (.error ())).1.estado = "To Do" :=
  ⟨(estado_reserva "o" "p" "t" "Issue" "Bugs creados" none "r"
      ["New", "Active"] (.error ()) (by decide)).1 "New" ["Active"] rfl,
   (estado_reserva "o" "p" "t" "Issue" "Bugs creados" none "r"
      [] (.error ()) (by decide)).2 rfl⟩

/-- C8: a raised transport error or a non-2xx answer to the create call makes
the submitter return `success = false` with no item id, no url and no state —
it never propagates the failure. -/
theorem envio_fallo_blando (org proyecto titulo tipo columna : String)
    (detalles : Option Detalles) (remitente : String) (estados : List String)
    (respuesta : Except Unit HttpRespuesta)
    (h : respuesta = .error () ∨
      ∃ r, respuesta = .ok r ∧ (r.status_code < 200 ∨ 300 ≤ r.status_code)) :
    (crear_elemento_trabajo org proyecto titulo tipo columna detalles remitente
        estados respuesta).2 = ResultadoCreacion.mk false none none none := by
  rcases h with rfl | ⟨r, rfl, hr⟩
  · simp [crear_elemento_trabajo]
  · have h200 : r.status_code ≠ 200 := by omega
    have h201 : r.status_code ≠ 201 := by omega
    simp [crear_elemento_trabajo, h200, h201]

/-- Witness for C8 at a 500 answer. -/
theorem envio_fallo_blando_witness :
    (crear_elemento_trabajo "o" "p" "t" "Issue" "Bugs creados" none "r"
        ["To Do"] (.ok ⟨500, some 3⟩)).2 = ResultadoCreacion.mk false none none none :=
  envio_fallo_blando "o" "p" "t" "Issue" "Bugs creados" none "r" ["To Do"]
    (.ok ⟨500, some 3⟩) (Or.inr ⟨⟨500, some 3⟩, rfl, by decide⟩)

/-- C9: the description renderer is a pure deterministic function — identical
category, details and sender give byte-identical output (the embedded
renderer reads nothing but its arguments and the fixed string literals). -/
theorem renderizado_determinista (c₁ c₂ : String) (d₁ d₂ : Option Detalles)
    (r₁ r₂ : String) (hc : c₁ = c₂) (hd : d₁ = d₂) (hr : r₁ = r₂) :
    _construir_descripcion c₁ d₁ r₁ = _construir_descripcion c₂ d₂ r₂ := by
  subst hc
  subst hd
  subst hr
  rfl

/-- Witness for C9 at concrete arguments. -/
theorem renderizado_determinista_witness :
    _construir_descripcion "Bugs creados" none "a@b"
      = _construir_descripcion "Bugs creados" none "a@b" :=
  renderizado_determinista "Bugs creados" "Bugs creados" none none "a@b" "a@b"
    rfl rfl rfl

/-- Every successfully fetched message's trace starts with the fixed prefix
log → extract → mark-seen → classify (main.py 407-417), whatever follows. -/
theorem traza_estructura (e : EntradaProceso) (h : e.fetch_ok = true) :
    ∃ resto, procesar_correo_traza e =
      Evento.registrar_entrada :: Evento.extraccion :: Evento.marcar_visto ::
        Evento.clasificacion :: resto := by
  unfold procesar_correo_traza
  rw [if_neg (by simp [h])]
  rcases determinar_accion_por_remitente e.asunto e.remitente with ⟨c, t⟩
  cases c with
  | none => exact ⟨_, rfl⟩
  | some columna => exact ⟨_, rfl⟩

/-- An input on which the fetch succeeds and classification is the no-action
outcome: subject `"Daily digest"` matches nothing (end-to-end scenario 3). -/
def entradaSinAccion : EntradaProceso :=
  { fetch_ok := true, asunto := "Daily digest", entrada_cuerpo := .ok ""
    remitente := "azuredevops@microsoft.com", org := "o", proyecto := "p"
    tipos_disponibles := ["Issue"], estados_disponibles := ["To Do", "Doing", "Done"]
    respuesta_creacion := .ok ⟨201, some 1⟩ }

/-- C1 counterexample: on a successfully fetched message the mark-as-handled
store (main.py 414) runs before classification (main.py 417) and is not the
final step of the per-message pipeline. -/
theorem marcar_visto_no_final :
    (procesar_correo_traza entradaSinAccion).findIdx (· = Evento.marcar_visto)
        < (procesar_correo_traza entradaSinAccion).findIdx (· = Evento.clasificacion) ∧
    (procesar_correo_traza entradaSinAccion).getLast? ≠ some Evento.marcar_visto ∧
    Evento.marcar_visto ∈ procesar_correo_traza entradaSinAccion := by
  decide

/-- C1 (amended): for every message whose fetch succeeds, the mark-as-handled
store on the IMAP collaborator is executed — after extraction and before
classification rather than as the final step — regardless of the downstream
outcome (no-action, creation success or failure, extraction errors); it is
not executed when the fetch fails. -/
theorem marcar_visto_siempre (e : EntradaProceso) :
    (e.fetch_ok = true →
      Evento.marcar_visto ∈ procesar_correo_traza e ∧
      (procesar_correo_traza e).findIdx (· = Evento.extraccion)
          < (procesar_correo_traza e).findIdx (· = Evento.marcar_visto) ∧
      (procesar_correo_traza e).findIdx (· = Evento.marcar_visto)
          < (procesar_correo_traza e).findIdx (· = Evento.clasificacion)) ∧
    (e.fetch_ok = false → Evento.marcar_visto ∉ procesar_correo_traza e) := by
  constructor
  · intro h
    obtain ⟨resto, hr⟩ := traza_estructura e h
    rw [hr]
    refine ⟨by simp, ?_, ?_⟩ <;> simp [List.findIdx_cons]
  · intro h
    simp [procesar_correo_traza, h]

/-- Witness for C1 (amended): one fetched message and one failed fetch. -/
theorem marcar_visto_siempre_witness :
    (Evento.marcar_visto ∈ procesar_correo_traza entradaSinAccion ∧
      (procesar_correo_traza entradaSinAccion).findIdx (· = Evento.extraccion)
          < (procesar_correo_traza entradaSinAccion).findIdx (· = Evento.marcar_visto) ∧
      (procesar_correo_traza entradaSinAccion).findIdx (· = Evento.marcar_visto)
          < (procesar_correo_traza entradaSinAccion).findIdx (· = Evento.clasificacion)) ∧
    Evento.marcar_visto ∉ procesar_correo_traza { entradaSinAccion with fetch_ok := false } :=
  ⟨(marcar_visto_siempre entradaSinAccion).1 rfl,
   (marcar_visto_siempre { entradaSinAccion with fetch_ok := false }).2 rfl⟩
